import Mathlib

set_option allowUnsafeReducibility true
attribute [semireducible] Rat.mul Rat.inv Rat.add Rat.sub

/-!
Shallow embedding of the gihelper perception-and-control core.

The definitions below translate, function by function, the Python sources
`src/automation/controller.py`, `src/automation/navigator.py`,
`src/screen/detector.py`, `src/screen/template_matcher.py` and
`src/engine/decision.py`.  Machine reals (Python floats) are modelled by
rationals; the input-injection library calls (pydirectinput / pyautogui)
are modelled by an event log appended to the controller state; Python
exceptions raised by cv2 on empty images are modelled with Except.
-/

namespace GiHelper

/-- Result of a controller action (`ActionResult` dataclass in controller.py). -/
structure ActionResult where
  success : Bool
  message : String := ""
deriving Repr, DecidableEq

/-- One call into the underlying input-injection library.  The Python code
calls pydirectinput / pyautogui; the embedding records each such call so
that theorems can speak about whether input was injected. -/
inductive InputEvent where
  | moveTo (x y : Int)
  | moveRel (dx dy : Int)
  | clickBtn (button : String)
  | keyDown (key : String)
  | keyUp (key : String)
  | press (key : String)
  | typewrite (text : String)
  | dragRel (dx dy : Int)
  | mouseDown
  | mouseUp
deriving Repr, DecidableEq

/-- Input mode chosen in `GameController.__init__`. -/
inductive InputMode where
  | pyautogui
  | directinput
deriving Repr, DecidableEq

/-- State of `GameController` (controller.py): the pause / emergency flags,
the owned set of currently-held keys (`_pressed_keys`, a Python set,
modelled as a duplicate-free list), and the log of injected input events. -/
structure GameController where
  mode : InputMode
  is_paused : Bool
  is_emergency_stopped : Bool
  pressed_keys : List String
  injected : List InputEvent
deriving Repr, DecidableEq

namespace GameController

/-- The failure result every guarded operation returns while paused or
emergency-stopped. -/
def blockedResult : ActionResult := ⟨false, "Controller is paused or stopped"⟩

/-- Guard used at the top of every guarded operation:
`if self.is_paused or self.is_emergency_stopped`. -/
def blocked (c : GameController) : Bool :=
  c.is_paused || c.is_emergency_stopped

/-- controller.py `move_mouse`: move mouse to absolute position. -/
def move_mouse (c : GameController) (x y : Int) : GameController × ActionResult :=
  if c.blocked then (c, blockedResult)
  else ({ c with injected := c.injected ++ [InputEvent.moveTo x y] }, ⟨true, ""⟩)

/-- controller.py `move_mouse_relative`. -/
def move_mouse_relative (c : GameController) (dx dy : Int) : GameController × ActionResult :=
  if c.blocked then (c, blockedResult)
  else ({ c with injected := c.injected ++ [InputEvent.moveRel dx dy] }, ⟨true, ""⟩)

/-- controller.py `click`. -/
def click (c : GameController) (button : String) : GameController × ActionResult :=
  if c.blocked then (c, blockedResult)
  else ({ c with injected := c.injected ++ [InputEvent.clickBtn button] }, ⟨true, ""⟩)

/-- controller.py `click_at`: move then click, propagating a move failure. -/
def click_at (c : GameController) (x y : Int) (button : String) :
    GameController × ActionResult :=
  let mr := c.move_mouse x y
  if mr.2.success then mr.1.click button else mr

/-- controller.py `drag`: guarded; moves to the start point, then either a
single relative drag call (pyautogui) or a mouseDown / moveTo / mouseUp
sequence (directinput). -/
def drag (c : GameController) (sx sy ex ey : Int) : GameController × ActionResult :=
  if c.blocked then (c, blockedResult)
  else
    let c1 := (c.move_mouse sx sy).1
    match c.mode with
    | InputMode.pyautogui =>
        ({ c1 with injected := c1.injected ++ [InputEvent.dragRel (ex - sx) (ey - sy)] },
          ⟨true, ""⟩)
    | InputMode.directinput =>
        ({ c1 with injected :=
            c1.injected ++ [InputEvent.mouseDown, InputEvent.moveTo ex ey, InputEvent.mouseUp] },
          ⟨true, ""⟩)

/-- controller.py `rotate_camera`: a relative mouse move. -/
def rotate_camera (c : GameController) (dx dy : Int) : GameController × ActionResult :=
  c.move_mouse_relative dx dy

/-- controller.py `press_key`: press and release a key (guarded). -/
def press_key (c : GameController) (key : String) : GameController × ActionResult :=
  if c.blocked then (c, blockedResult)
  else ({ c with injected := c.injected ++ [InputEvent.press key] }, ⟨true, ""⟩)

/-- controller.py `hold_key`: hold a key down (guarded); on success the key
is added to the held-key set. -/
def hold_key (c : GameController) (key : String) : GameController × ActionResult :=
  if c.blocked then (c, blockedResult)
  else
    ({ c with
        injected := c.injected ++ [InputEvent.keyDown key],
        pressed_keys :=
          if key ∈ c.pressed_keys then c.pressed_keys else c.pressed_keys ++ [key] },
      ⟨true, ""⟩)

/-- controller.py `release_key`: release a held key.  Note: the source has
no paused / emergency-stopped guard here — the key-up is always injected
and the key is discarded from the held-key set. -/
def release_key (c : GameController) (key : String) : GameController × ActionResult :=
  ({ c with
      injected := c.injected ++ [InputEvent.keyUp key],
      pressed_keys := c.pressed_keys.erase key },
    ⟨true, ""⟩)

/-- controller.py `release_all_keys`: release every held key, then clear
the held-key set. -/
def release_all_keys (c : GameController) : GameController :=
  let c1 := c.pressed_keys.foldl (fun acc k => (acc.release_key k).1) c
  { c1 with pressed_keys := [] }

/-- controller.py `type_text` (guarded): one typewrite call in pyautogui
mode, per-character presses in directinput mode. -/
def type_text (c : GameController) (text : String) : GameController × ActionResult :=
  if c.blocked then (c, blockedResult)
  else
    match c.mode with
    | InputMode.pyautogui =>
        ({ c with injected := c.injected ++ [InputEvent.typewrite text] }, ⟨true, ""⟩)
    | InputMode.directinput =>
        ({ c with injected :=
            c.injected ++ text.toList.map (fun ch => InputEvent.press (String.singleton ch)) },
          ⟨true, ""⟩)

/-- controller.py `_hold_and_release` (guarded): key down, sleep, key up.
The held-key set is not touched by this helper in the source. -/
def hold_and_release (c : GameController) (key : String) : GameController × ActionResult :=
  if c.blocked then (c, blockedResult)
  else ({ c with injected := c.injected ++ [InputEvent.keyDown key, InputEvent.keyUp key] },
    ⟨true, ""⟩)

/-- controller.py `move_forward`: hold the forward key for a duration. -/
def move_forward (c : GameController) : GameController × ActionResult :=
  c.hold_and_release "w"

/-- controller.py `interact`: press the interact key F. -/
def interact (c : GameController) : GameController × ActionResult :=
  c.press_key "f"

/-- controller.py `jump`. -/
def jump (c : GameController) : GameController × ActionResult :=
  c.press_key "space"

/-- controller.py `open_map`. -/
def open_map (c : GameController) : GameController × ActionResult :=
  c.press_key "m"

/-- controller.py `escape`. -/
def escape (c : GameController) : GameController × ActionResult :=
  c.press_key "escape"

/-- controller.py `pause`: set the paused flag, then release all keys. -/
def pause (c : GameController) : GameController :=
  ({ c with is_paused := true }).release_all_keys

/-- controller.py `resume`. -/
def resume (c : GameController) : GameController :=
  { c with is_paused := false }

/-- controller.py `emergency_stop`: set the emergency flag, then release
all keys. -/
def emergency_stop (c : GameController) : GameController :=
  ({ c with is_emergency_stopped := true }).release_all_keys

/-- controller.py `reset`: clear both flags and release all keys. -/
def reset (c : GameController) : GameController :=
  ({ c with is_paused := false, is_emergency_stopped := false }).release_all_keys

end GameController

/-- decision.py `ExecutionState`. -/
inductive ExecutionState where
  | IDLE
  | RUNNING
  | PAUSED
  | STOPPED
  | COMPLETED
  | ERROR
deriving Repr, DecidableEq

/-- decision.py `ExecutionProgress` dataclass. -/
structure ExecutionProgress where
  current_step : Nat
  total_steps : Nat
  current_step_description : String
  state : ExecutionState
  error_message : String := ""
deriving Repr, DecidableEq

/-- decision.py `ExecutionProgress.percentage`: 0 when there are no steps,
otherwise current / total × 100. -/
def ExecutionProgress.percentage (p : ExecutionProgress) : ℚ :=
  if p.total_steps = 0 then 0
  else ((p.current_step : ℚ) / (p.total_steps : ℚ)) * 100

/-- detector.py `GameState` enumeration. -/
inductive GameState where
  | UNKNOWN
  | MAIN_MENU
  | LOADING
  | WORLD
  | MAP
  | INVENTORY
  | DIALOG
  | COMBAT
  | DOMAIN
  | CUTSCENE
  | PAUSE_MENU
deriving Repr, DecidableEq

/-- An RGB screenshot: a rows × cols grid of 8-bit RGB pixels (numpy array
in the source).  The pixel function is total; only indices inside the grid
are meaningful. -/
structure Frame where
  rows : Nat
  cols : Nat
  pix : Nat → Nat → Nat × Nat × Nat

/-- The cv2 error raised on an empty input image (for example by
`cv2.cvtColor` when a crop is empty). -/
inductive CvErr where
  | emptyInput
deriving Repr, DecidableEq

/-- List of all (row, col) index pairs of a frame. -/
def Frame.indices (f : Frame) : List (Nat × Nat) :=
  (List.range f.rows).flatMap (fun r => (List.range f.cols).map (fun c => (r, c)))

/-- Number of pixels of a frame. -/
def Frame.size (f : Frame) : Nat := f.rows * f.cols

/-- A frame is empty when it has no pixels (numpy `.size == 0`). -/
def Frame.isEmpty (f : Frame) : Bool := f.rows = 0 || f.cols = 0

/-- numpy slice `screen[y:y+h, x:x+w]`: clamps to the array bounds and
never fails; the result is empty when the slice start lies outside. -/
def Frame.crop (f : Frame) (y x h w : Nat) : Frame where
  rows := min (y + h) f.rows - y
  cols := min (x + w) f.cols - x
  pix := fun r c => f.pix (y + r) (x + c)

/-- Grayscale value of one RGB pixel, the cv2 RGB2GRAY weighting
0.299 R + 0.587 G + 0.114 B, kept exact as a rational. -/
def grayPix (p : Nat × Nat × Nat) : ℚ :=
  (299 * (p.1 : ℚ) + 587 * (p.2.1 : ℚ) + 114 * (p.2.2 : ℚ)) / 1000

/-- Mean of `np.mean` over the grayscale image of a frame (meaningful only
for nonempty frames, matching the source where cvtColor has already
rejected empty input). -/
def Frame.grayMean (f : Frame) : ℚ :=
  (f.indices.map (fun rc => grayPix (f.pix rc.1 rc.2))).sum / (f.size : ℚ)

/-- cv2 RGB2HSV of one 8-bit RGB pixel, kept exact as rationals:
V = max channel, S = 255·(V−min)/V, H in [0,180) (the 8-bit half-degree
convention). -/
def hsvPix (p : Nat × Nat × Nat) : ℚ × ℚ × ℚ :=
  let r : ℚ := (p.1 : ℚ)
  let g : ℚ := (p.2.1 : ℚ)
  let b : ℚ := (p.2.2 : ℚ)
  let v : ℚ := max r (max g b)
  let mn : ℚ := min r (min g b)
  let d : ℚ := v - mn
  let s : ℚ := if v = 0 then 0 else 255 * d / v
  let hfull : ℚ :=
    if d = 0 then 0
    else if v = r then 60 * (g - b) / d
    else if v = g then 120 + 60 * (b - r) / d
    else 240 + 60 * (r - g) / d
  let h : ℚ := (if hfull < 0 then hfull + 360 else hfull) / 2
  (h, s, v)

/-- detector.py `_is_map_open` inRange test: HSV between (90,50,50) and
(130,255,255) — the "map blue" band. -/
def isMapBlue (p : Nat × Nat × Nat) : Bool :=
  let hsv := hsvPix p
  decide (90 ≤ hsv.1 ∧ hsv.1 ≤ 130 ∧ 50 ≤ hsv.2.1 ∧ hsv.2.1 ≤ 255 ∧
    50 ≤ hsv.2.2 ∧ hsv.2.2 ≤ 255)

/-- Fraction of pixels of a frame inside the map-blue HSV band
(`np.sum(mask > 0) / mask.size` in the source). -/
def Frame.blueFraction (f : Frame) : ℚ :=
  ((f.indices.filter (fun rc => isMapBlue (f.pix rc.1 rc.2))).length : ℚ) / (f.size : ℚ)

/-- Variance of all channel values of a frame (`np.std` squared: np.std
flattens the color image, so every channel of every pixel counts).  Zero
on an empty frame. -/
def Frame.channelVariance (f : Frame) : ℚ :=
  let vals : List ℚ := f.indices.flatMap
    (fun rc => [((f.pix rc.1 rc.2).1 : ℚ), ((f.pix rc.1 rc.2).2.1 : ℚ),
      ((f.pix rc.1 rc.2).2.2 : ℚ)])
  if vals.length = 0 then 0
  else
    let m : ℚ := vals.sum / (vals.length : ℚ)
    (vals.map (fun v => (v - m) ^ 2)).sum / (vals.length : ℚ)

/-- Python `int()` on a rational value: truncation toward zero. -/
def ratTrunc (q : ℚ) : Int :=
  if 0 ≤ q then ⌊q⌋ else ⌈q⌉

/-- detector.py `GameDetector`: holds the capture resolution and the two
derived scale factors relative to the 1920×1080 calibration resolution. -/
structure GameDetector where
  resolution : Nat × Nat
deriving Repr, DecidableEq

namespace GameDetector

/-- Calibration region for the minimap (x, y, w, h) at 1920×1080. -/
def MINIMAP_REGION : Nat × Nat × Nat × Nat := (55, 45, 210, 200)

/-- Calibration region for the dialog text band at 1920×1080. -/
def DIALOG_REGION : Nat × Nat × Nat × Nat := (300, 650, 1320, 150)

/-- detector.py `scale_x = resolution[0] / 1920`. -/
def scale_x (d : GameDetector) : ℚ := (d.resolution.1 : ℚ) / 1920

/-- detector.py `scale_y = resolution[1] / 1080`. -/
def scale_y (d : GameDetector) : ℚ := (d.resolution.2 : ℚ) / 1080

/-- detector.py `_scale_region`: scale a calibration region to the actual
resolution, truncating each coordinate with `int()`.  All quantities are
nonnegative, so the truncation is a floor and the result stays a Nat. -/
def scale_region (d : GameDetector) (region : Nat × Nat × Nat × Nat) :
    Nat × Nat × Nat × Nat :=
  ((ratTrunc ((region.1 : ℚ) * d.scale_x)).toNat,
   (ratTrunc ((region.2.1 : ℚ) * d.scale_y)).toNat,
   (ratTrunc ((region.2.2.1 : ℚ) * d.scale_x)).toNat,
   (ratTrunc ((region.2.2.2 : ℚ) * d.scale_y)).toNat)

/-- detector.py `_is_loading_screen`: cvtColor to gray (raising on an
empty frame), then mean brightness < 30. -/
def is_loading_screen (_d : GameDetector) (screen : Frame) : Except CvErr Bool :=
  if screen.isEmpty then Except.error CvErr.emptyInput
  else Except.ok (decide (screen.grayMean < 30))

/-- detector.py `_has_dialog_ui`: crop the scaled dialog region, cvtColor
to gray (raising if the crop is empty), then 20 < mean < 80.  The source
has no bounds guard before the crop. -/
def has_dialog_ui (d : GameDetector) (screen : Frame) : Except CvErr Bool :=
  let reg := d.scale_region DIALOG_REGION
  let area := screen.crop reg.2.1 reg.1 reg.2.2.2 reg.2.2.1
  if area.isEmpty then Except.error CvErr.emptyInput
  else Except.ok (decide (20 < area.grayMean ∧ area.grayMean < 80))

/-- detector.py `_is_map_open`: central third-by-third crop, cvtColor to
HSV (raising if the crop is empty), then more than 15 percent of the
pixels in the map-blue band. -/
def is_map_open (_d : GameDetector) (screen : Frame) : Except CvErr Bool :=
  let center := screen.crop (screen.rows / 3) (screen.cols / 3)
    (2 * screen.rows / 3 - screen.rows / 3) (2 * screen.cols / 3 - screen.cols / 3)
  if center.isEmpty then Except.error CvErr.emptyInput
  else Except.ok (decide ((15 : ℚ) / 100 < center.blueFraction))

/-- detector.py `_is_pause_menu`: cvtColor to gray on the full frame, then
40 < mean brightness < 70. -/
def is_pause_menu (_d : GameDetector) (screen : Frame) : Except CvErr Bool :=
  if screen.isEmpty then Except.error CvErr.emptyInput
  else Except.ok (decide (40 < screen.grayMean ∧ screen.grayMean < 70))

/-- detector.py `_is_main_menu`: the reserved heuristic, always False. -/
def is_main_menu (_d : GameDetector) (_screen : Frame) : Bool := false

/-- detector.py `_has_minimap`: scale the minimap region, return False if
it exceeds the frame bounds (this helper does guard), otherwise test the
pixel-value standard deviation of the crop against 30 (expressed as
variance > 900; np.std of an empty slice is NaN, which also compares
False, matching the zero-variance convention of channelVariance). -/
def has_minimap (d : GameDetector) (screen : Frame) : Bool :=
  let reg := d.scale_region MINIMAP_REGION
  if screen.rows < reg.2.1 + reg.2.2.2 || screen.cols < reg.1 + reg.2.2.1 then false
  else
    let minimap := screen.crop reg.2.1 reg.1 reg.2.2.2 reg.2.2.1
    decide (900 < minimap.channelVariance)

/-- detector.py `detect_game_state`: the fixed first-match-wins heuristic
order Loading → Dialog → Map → PauseMenu → MainMenu → World → Unknown.
An uncaught cv2 error from any heuristic propagates out. -/
def detect_game_state (d : GameDetector) (screen : Frame) : Except CvErr GameState := do
  if ← d.is_loading_screen screen then return GameState.LOADING
  if ← d.has_dialog_ui screen then return GameState.DIALOG
  if ← d.is_map_open screen then return GameState.MAP
  if ← d.is_pause_menu screen then return GameState.PAUSE_MENU
  if d.is_main_menu screen then return GameState.MAIN_MENU
  if d.has_minimap screen then return GameState.WORLD
  return GameState.UNKNOWN

end GameDetector

/-- template_matcher.py `MatchResult` dataclass. -/
structure MatchResult where
  template_name : String
  confidence : ℚ
  location : Int × Int
  center : Int × Int
  size : Int × Int
deriving Repr, DecidableEq

/-- template_matcher.py `MatchResult.bounding_box`: (x, y, width, height). -/
def MatchResult.bounding_box (m : MatchResult) : Int × Int × Int × Int :=
  (m.location.1, m.location.2, m.size.1, m.size.2)

namespace TemplateMatcher

/-- template_matcher.py `_calculate_overlap`: intersection over union of
the two axis-aligned bounding boxes; 0 when they do not overlap or the
union is degenerate. -/
def calculate_overlap (m1 m2 : MatchResult) : ℚ :=
  let b1 := m1.bounding_box
  let b2 := m2.bounding_box
  let xi := max b1.1 b2.1
  let yi := max b1.2.1 b2.2.1
  let wi := min (b1.1 + b1.2.2.1) (b2.1 + b2.2.2.1) - xi
  let hi := min (b1.2.1 + b1.2.2.2) (b2.2.1 + b2.2.2.2) - yi
  if wi ≤ 0 ∨ hi ≤ 0 then 0
  else
    let intersection : ℚ := (wi : ℚ) * (hi : ℚ)
    let union : ℚ := (b1.2.2.1 * b1.2.2.2 + b2.2.2.1 * b2.2.2.2 : ℤ) - intersection
    if 0 < union then intersection / union else 0

/-- The descending-confidence preorder used by the Python
`sorted(matches, key=lambda x: x.confidence, reverse=True)` calls:
a comes no later than b when its confidence ties or beats b's. -/
def confGe (a b : MatchResult) : Prop := b.confidence ≤ a.confidence

instance : DecidableRel confGe :=
  fun a b => inferInstanceAs (Decidable (b.confidence ≤ a.confidence))

instance : IsTotal MatchResult confGe :=
  ⟨fun a b => (le_total b.confidence a.confidence).imp id id⟩

instance : IsTrans MatchResult confGe :=
  ⟨fun _ _ _ hab hbc => le_trans hbc hab⟩

/-- Stable sort by descending confidence.  Python's sorted is a stable
sort, and a stable sort is uniquely determined by its key order, so
insertion sort under confGe is the exact semantics of
`sorted(matches, key=lambda x: x.confidence, reverse=True)`. -/
def sortDesc (cands : List MatchResult) : List MatchResult :=
  List.insertionSort confGe cands

/-- The greedy keep loop of `_non_max_suppression`: keep a candidate only
if its overlap with every already-kept candidate is ≤ the threshold; kept
candidates are appended in processing order. -/
def nmsKeep (thr : ℚ) : List MatchResult → List MatchResult → List MatchResult
  | [], keep => keep
  | m :: ms, keep =>
      if keep.all (fun kept => decide (calculate_overlap m kept ≤ thr)) then
        nmsKeep thr ms (keep ++ [m])
      else
        nmsKeep thr ms keep

/-- template_matcher.py `_non_max_suppression`: empty in, empty out;
otherwise sort by confidence descending and greedily keep candidates
whose IoU with every kept one is ≤ the overlap threshold. -/
def non_max_suppression (cands : List MatchResult) (overlap_threshold : ℚ) :
    List MatchResult :=
  match cands with
  | [] => []
  | _ => nmsKeep overlap_threshold (sortDesc cands) []

end TemplateMatcher

namespace Navigator

/-- navigator.py `turn_to_direction`, first normalization loop:
`while diff > 180: diff -= 360`. -/
def normHi (d : ℚ) : ℚ :=
  if h : 180 < d then normHi (d - 360) else d
termination_by (⌈d⌉).toNat
decreasing_by
  have h1 : (181 : ℤ) ≤ ⌈d⌉ := by
    have := Int.le_ceil d
    have h2 : (180 : ℚ) < (⌈d⌉ : ℚ) := lt_of_lt_of_le h this
    have h2' : (180 : ℤ) < ⌈d⌉ := by exact_mod_cast h2
    omega
  have h3 : ⌈d - 360⌉ = ⌈d⌉ - 360 := by
    exact_mod_cast Int.ceil_sub_int d (360 : ℤ)
  simp only [h3]
  omega

/-- navigator.py `turn_to_direction`, second normalization loop:
`while diff < -180: diff += 360`. -/
def normLo (d : ℚ) : ℚ :=
  if h : d < -180 then normLo (d + 360) else d
termination_by (-⌊d⌋).toNat
decreasing_by
  have h1 : ⌊d⌋ ≤ (-181 : ℤ) := by
    have := Int.floor_le d
    have h2 : (⌊d⌋ : ℚ) < -180 := lt_of_le_of_lt this h
    have h2' : ⌊d⌋ < (-180 : ℤ) := by exact_mod_cast h2
    omega
  have h3 : ⌊d + 360⌋ = ⌊d⌋ + 360 := by
    exact_mod_cast Int.floor_add_int d (360 : ℤ)
  simp only [h3]
  omega

/-- The normalized angular delta computed by `turn_to_direction`: the raw
difference pushed down below 180 and then up above −180. -/
def turnDelta (target_direction current_direction : ℚ) : ℚ :=
  normLo (normHi (target_direction - current_direction))

/-- The pointer displacement issued by `turn_to_direction`:
`int(diff * 1500 / 360)`, a truncation toward zero. -/
def turnPixels (target_direction current_direction : ℚ) : Int :=
  ratTrunc (turnDelta target_direction current_direction * 1500 / 360)

/-- navigator.py `turn_to_direction`: normalize the delta, convert it to
a pixel displacement and issue a single relative camera move on the
controller. -/
def turn_to_direction (c : GameController) (target_direction current_direction : ℚ) :
    GameController × ActionResult :=
  c.rotate_camera (turnPixels target_direction current_direction) 0

/-- navigator.py `approach_and_interact`, loop body over the remaining
attempt indices.  `prompts i` tells whether `detect_interaction_prompt`
sees a prompt on the frame sampled at attempt `i` (the sampled screens are
external input).  When a prompt is seen the controller interacts and the
loop returns that result; otherwise the loop advances via
`move_towards_screen_point` (a camera turn and a forward hold, modelled by
its controller effects) and re-samples.  The returned Nat counts the
move-and-resample iterations performed. -/
def approachGo (prompts : Nat → Bool) :
    List Nat → GameController → Nat → (GameController × ActionResult) × Nat
  | [], c, moves => ((c, ⟨false, "Could not reach interaction point"⟩), moves)
  | a :: rest, c, moves =>
      if prompts a then
        (c.interact, moves)
      else
        let c1 := ((c.rotate_camera 0 0).1.move_forward).1
        approachGo prompts rest c1 (moves + 1)

/-- navigator.py `approach_and_interact`: loop for
`attempt in range(max_attempts)`; exhausting the attempts returns the
failure result. -/
def approach_and_interact (prompts : Nat → Bool) (c : GameController)
    (max_attempts : Nat) : (GameController × ActionResult) × Nat :=
  approachGo prompts (List.range max_attempts) c 0

end Navigator

/-- video/analyzer.py `ActionType` enumeration. -/
inductive ActionType where
  | MOVE
  | SPRINT
  | JUMP
  | CLIMB
  | GLIDE
  | SWIM
  | PLUNGE
  | INTERACT
  | ATTACK
  | CHARGED_ATTACK
  | ELEMENTAL_SKILL
  | ELEMENTAL_BURST
  | TELEPORT
  | OPEN_MAP
  | USE_GADGET
  | DIALOG
  | WAIT
  | KEY_PRESS
  | MOUSE_CLICK
  | CUSTOM
deriving Repr, DecidableEq

/-- video/analyzer.py `GuideStep` dataclass (the fields the engine reads). -/
structure GuideStep where
  step_number : Nat
  action_type : ActionType
  description : String
  direction : Option String := none
  duration : Option ℚ := none
  target : Option String := none
  key_to_press : Option String := none
  hold_key : Bool := false
  teleport_location : Option String := none
  wait_before : Option ℚ := none
  wait_after : Option ℚ := none
deriving Repr, DecidableEq

/-- State of decision.py `DecisionEngine`: the execution state, the step
cursor, the loaded guide, the two threading events (pause_event set means
not paused) and the controller it owns. -/
structure Engine where
  state : ExecutionState
  current_step : Nat
  guide_steps : List GuideStep
  stop_event : Bool
  pause_event : Bool
  controller : GameController
deriving Repr, DecidableEq

namespace Engine

/-- decision.py `start`: no-op when the step list is empty or already
Running; otherwise clear the stop signal, set the pause event and go to
Running (the background loop launch is the external side). -/
def start (e : Engine) : Engine :=
  if e.guide_steps.isEmpty then e
  else if e.state = ExecutionState.RUNNING then e
  else { e with
    state := ExecutionState.RUNNING,
    stop_event := false,
    pause_event := true }

/-- decision.py `pause`: only meaningful while Running; clears the pause
event, moves to Paused and pauses the controller (which releases all held
keys). -/
def pause (e : Engine) : Engine :=
  if e.state = ExecutionState.RUNNING then
    { e with
      state := ExecutionState.PAUSED,
      pause_event := false,
      controller := e.controller.pause }
  else e

/-- decision.py `resume`: only meaningful while Paused. -/
def resume (e : Engine) : Engine :=
  if e.state = ExecutionState.PAUSED then
    { e with
      state := ExecutionState.RUNNING,
      pause_event := true,
      controller := e.controller.resume }
  else e

/-- decision.py `stop`: unconditionally set the stop signal, unblock a
paused loop, emergency-stop the controller and move to Stopped (the
bounded thread join is the external side). -/
def stop (e : Engine) : Engine :=
  { e with
    state := ExecutionState.STOPPED,
    stop_event := true,
    pause_event := true,
    controller := e.controller.emergency_stop }

/-- decision.py `reset`: stop, clear the step cursor, return to Idle and
reset the controller. -/
def reset (e : Engine) : Engine :=
  let e1 := e.stop
  { e1 with
    state := ExecutionState.IDLE,
    current_step := 0,
    controller := e1.controller.reset }

/-- decision.py `_ai_recovery`: classify the freshly captured frame; on
Dialog skip the dialog and report recovered, on Map close the map and
report recovered, on Loading wait and report recovered; any other state
falls through to the generic AI-assisted handler, whose outcome
(`_ai_decide_action`, driven by the external AI collaborator) is the
`ai_fallback` parameter.  A raised cv2 error is caught by the surrounding
try/except and reported as not recovered. -/
def ai_recovery (d : GameDetector) (screen : Frame) (ai_fallback : Bool) : Bool :=
  match d.detect_game_state screen with
  | Except.error _ => false
  | Except.ok GameState.DIALOG => true
  | Except.ok GameState.MAP => true
  | Except.ok GameState.LOADING => true
  | Except.ok _ => ai_fallback

/-- One iteration of the cursor-advance logic of decision.py
`_execution_loop` after the current step has been dispatched:
on success advance the cursor; on failure run `_ai_recovery`, and advance
the cursor only when recovery also fails (when recovery reports success
the cursor is left unchanged and the same step is retried). -/
def loopIteration (e : Engine) (step_success : Bool) (d : GameDetector)
    (screen : Frame) (ai_fallback : Bool) : Engine :=
  if step_success then { e with current_step := e.current_step + 1 }
  else if ai_recovery d screen ai_fallback then e
  else { e with current_step := e.current_step + 1 }

end Engine

/-! ### Concrete fixtures used by witnesses and counterexamples -/

/-- A freshly constructed controller: no flags set, no held keys, no
injected input yet. -/
def ctrl0 : GameController := ⟨InputMode.directinput, false, false, [], []⟩

/-- A paused controller that still holds the forward key (a hold was in
flight when the pause was requested). -/
def ctrlPaused : GameController := ⟨InputMode.directinput, true, false, ["w"], []⟩

/-- Shorthand for a guide step with only the required fields. -/
def stepOf (n : Nat) (a : ActionType) (desc : String) : GuideStep :=
  { step_number := n, action_type := a, description := desc }

/-- The three-step guide of the spec scenarios. -/
def steps3 : List GuideStep :=
  [stepOf 1 ActionType.TELEPORT "teleport to waypoint a",
   stepOf 2 ActionType.MOVE "move forward",
   stepOf 3 ActionType.INTERACT "interact"]

/-- An engine that has completed the three-step guide. -/
def engCompleted : Engine :=
  ⟨ExecutionState.COMPLETED, 3, steps3, false, true, ctrl0⟩

/-- An engine running the three-step guide, with the forward key held. -/
def engRunning : Engine :=
  ⟨ExecutionState.RUNNING, 1, steps3, false, true,
    ⟨InputMode.directinput, false, false, ["w"], []⟩⟩

/-- The default detector, calibrated at the native 1920×1080 resolution. -/
def det1080 : GameDetector := ⟨(1920, 1080)⟩

/-- A tiny detector resolution used to scale the calibration regions down
far enough that small concrete frames still contain them. -/
def detSmall : GameDetector := ⟨(19, 10)⟩

/-- An 8×16 uniform mid-gray frame: under detSmall its full-frame mean
luminance is 50 (not dark) and its scaled dialog band has mean 50, so the
classifier reports Dialog. -/
def frameDialog : Frame := ⟨8, 16, fun _ _ => (50, 50, 50)⟩

/-- A 1×1 all-black frame: mean luminance 0, below the dark threshold. -/
def frameBlack : Frame := ⟨1, 1, fun _ _ => (0, 0, 0)⟩

/-- A 2×2 all-white frame: well-formed but far too small for the dialog
band crop at the native calibration resolution. -/
def frameWhite : Frame := ⟨2, 2, fun _ _ => (255, 255, 255)⟩

/-! ### C10 — ExecutionProgress.percentage is total -/

/-- C10: ExecutionProgress.percentage never divides by zero: with
total_steps = 0 it returns 0, and otherwise it returns
(current_step / total_steps) × 100. -/
theorem percentage_total_function (p : ExecutionProgress) :
    (p.total_steps = 0 → p.percentage = 0) ∧
    (p.total_steps ≠ 0 →
      p.percentage = ((p.current_step : ℚ) / (p.total_steps : ℚ)) * 100) := by
  constructor <;> intro h <;> simp [ExecutionProgress.percentage, h]

/-- Witness for C10 at the snapshot 1 of 4 steps: percentage 25. -/
theorem percentage_total_function_witness :
    (ExecutionProgress.mk 1 4 "" ExecutionState.RUNNING "").percentage = 25 := by
  have h := (percentage_total_function
    (ExecutionProgress.mk 1 4 "" ExecutionState.RUNNING "")).2 (by decide)
  rw [h]
  norm_num

/-! ### C3 — no key remains held after pause or stop -/

/-- C3: after the controller's pause the held-key set is empty; after an
emergency stop the held-key set is empty; and at engine level both stop()
and (while Running) pause() leave the controller with no held keys, even
if keys were held when the request arrived. -/
theorem held_keys_empty_after_pause_stop (c : GameController) (e : Engine)
    (h : e.state = ExecutionState.RUNNING) :
    (c.pause).pressed_keys = [] ∧
    (c.emergency_stop).pressed_keys = [] ∧
    (Engine.stop e).controller.pressed_keys = [] ∧
    (Engine.pause e).controller.pressed_keys = [] := by
  refine ⟨rfl, rfl, rfl, ?_⟩
  simp [Engine.pause, h, GameController.pause, GameController.release_all_keys]

/-- Witness for C3: a running engine whose controller holds the forward
key; pause and stop both leave the held-key set empty. -/
theorem held_keys_empty_after_pause_stop_witness :
    (ctrlPaused.pause).pressed_keys = [] ∧
    (ctrlPaused.emergency_stop).pressed_keys = [] ∧
    (Engine.stop engRunning).controller.pressed_keys = [] ∧
    (Engine.pause engRunning).controller.pressed_keys = [] :=
  held_keys_empty_after_pause_stop ctrlPaused engRunning rfl

/-! ### C4 — behaviour of actuation operations while paused or stopped -/

/-- C4 counterexample: release_key is not guarded.  On a paused controller
holding the forward key, release_key still injects the key-up event and
returns success, contradicting the claim that every listed operation is a
failure-returning no-op while paused. -/
theorem release_key_unguarded_cex :
    ctrlPaused.is_paused = true ∧
    (ctrlPaused.release_key "w").2.success = true ∧
    (ctrlPaused.release_key "w").1.injected = [InputEvent.keyUp "w"] :=
  ⟨rfl, rfl, rfl⟩

/-- C4 amended: while the controller reports itself paused or
emergency-stopped, press, hold, absolute and relative move, click, drag,
type-text and the hold-and-release helper all inject nothing, leave the
controller unchanged and return the failure result; release_key alone is
deliberately unguarded (so pause/stop can still release held keys): it
always injects the key-up and returns success. -/
theorem blocked_operations_amended (c : GameController) (h : c.blocked = true)
    (key btn txt : String) (x y dx dy sx sy ex ey : Int) :
    c.press_key key = (c, GameController.blockedResult) ∧
    c.hold_key key = (c, GameController.blockedResult) ∧
    c.move_mouse x y = (c, GameController.blockedResult) ∧
    c.move_mouse_relative dx dy = (c, GameController.blockedResult) ∧
    c.click btn = (c, GameController.blockedResult) ∧
    c.drag sx sy ex ey = (c, GameController.blockedResult) ∧
    c.type_text txt = (c, GameController.blockedResult) ∧
    c.hold_and_release key = (c, GameController.blockedResult) ∧
    (c.release_key key).2.success = true ∧
    (c.release_key key).1.injected = c.injected ++ [InputEvent.keyUp key] := by
  refine ⟨?_, ?_, ?_, ?_, ?_, ?_, ?_, ?_, rfl, rfl⟩ <;>
    simp [GameController.press_key, GameController.hold_key, GameController.move_mouse,
      GameController.move_mouse_relative, GameController.click, GameController.drag,
      GameController.type_text, GameController.hold_and_release, h]

/-- Witness for the amended C4 on a concrete paused controller. -/
theorem blocked_operations_amended_witness :
    ctrlPaused.press_key "f" = (ctrlPaused, GameController.blockedResult) ∧
    ctrlPaused.hold_key "f" = (ctrlPaused, GameController.blockedResult) ∧
    ctrlPaused.move_mouse 3 4 = (ctrlPaused, GameController.blockedResult) ∧
    ctrlPaused.move_mouse_relative 1 0 = (ctrlPaused, GameController.blockedResult) ∧
    ctrlPaused.click "left" = (ctrlPaused, GameController.blockedResult) ∧
    ctrlPaused.drag 0 0 5 5 = (ctrlPaused, GameController.blockedResult) ∧
    ctrlPaused.type_text "hi" = (ctrlPaused, GameController.blockedResult) ∧
    ctrlPaused.hold_and_release "f" = (ctrlPaused, GameController.blockedResult) ∧
    (ctrlPaused.release_key "f").2.success = true ∧
    (ctrlPaused.release_key "f").1.injected = ctrlPaused.injected ++ [InputEvent.keyUp "f"] :=
  blocked_operations_amended ctrlPaused rfl "f" "left" "hi" 3 4 1 0 0 0 5 5

/-! ### C2 — terminal execution states -/

/-- C2 counterexample: Completed is not terminal with respect to the
control operations: calling stop() on a completed engine changes the
execution state to Stopped. -/
theorem completed_not_terminal_cex :
    engCompleted.state = ExecutionState.COMPLETED ∧
    (Engine.stop engCompleted).state ≠ engCompleted.state :=
  ⟨rfl, by decide⟩

/-- C2 amended: from Stopped, Completed or Error, pause() and resume()
leave the execution state unchanged and reset() returns the engine to
Idle; however stop() unconditionally moves the engine to Stopped, and
start() with a nonempty step list restarts it to Running. -/
theorem terminal_states_amended (e : Engine)
    (h : e.state = ExecutionState.STOPPED ∨ e.state = ExecutionState.COMPLETED ∨
      e.state = ExecutionState.ERROR) :
    (Engine.pause e).state = e.state ∧
    (Engine.resume e).state = e.state ∧
    (Engine.reset e).state = ExecutionState.IDLE ∧
    (Engine.stop e).state = ExecutionState.STOPPED ∧
    (e.guide_steps.isEmpty = false → (Engine.start e).state = ExecutionState.RUNNING) := by
  have hr : ¬ e.state = ExecutionState.RUNNING := by
    rcases h with h | h | h <;> simp [h]
  have hp : ¬ e.state = ExecutionState.PAUSED := by
    rcases h with h | h | h <;> simp [h]
  refine ⟨?_, ?_, rfl, rfl, ?_⟩
  · simp [Engine.pause, hr]
  · simp [Engine.resume, hp]
  · intro hs
    simp [Engine.start, hs, hr]

/-- Witness for the amended C2 on a concrete completed engine. -/
theorem terminal_states_amended_witness :
    (Engine.pause engCompleted).state = engCompleted.state ∧
    (Engine.resume engCompleted).state = engCompleted.state ∧
    (Engine.reset engCompleted).state = ExecutionState.IDLE ∧
    (Engine.stop engCompleted).state = ExecutionState.STOPPED ∧
    (engCompleted.guide_steps.isEmpty = false →
      (Engine.start engCompleted).state = ExecutionState.RUNNING) :=
  terminal_states_amended engCompleted (Or.inr (Or.inl rfl))

/-! ### C1 — cursor advance after a failed step -/

/-- C1 counterexample: the engine is at step 2 of 3 (cursor 1), the step
fails, and the classifier sees Dialog.  Recovery reports success, so the
loop leaves the cursor at 1 and retries step 2 — it does not advance to
step 3 as the claim states. -/
theorem failed_step_not_advanced_cex :
    engRunning.current_step = 1 ∧ engRunning.guide_steps.length = 3 ∧
    GameDetector.detect_game_state detSmall frameDialog = Except.ok GameState.DIALOG ∧
    (Engine.loopIteration engRunning false detSmall frameDialog false).current_step = 1 := by
  set_option maxRecDepth 10000 in refine ⟨rfl, rfl, by rfl, by rfl⟩

/-- C1 amended: after dispatching a step, the loop advances the cursor on
success; on failure it invokes the recovery routine and advances the
cursor only when recovery also fails — when recovery reports success
(Dialog, Map and Loading states in particular) the cursor is left
unchanged and the same step is dispatched again. -/
theorem failed_step_advance_amended (e : Engine) (success fb : Bool)
    (d : GameDetector) (screen : Frame) :
    (Engine.loopIteration e success d screen fb).current_step =
      if success then e.current_step + 1
      else if Engine.ai_recovery d screen fb then e.current_step
      else e.current_step + 1 := by
  unfold Engine.loopIteration
  by_cases hs : success
  · simp [hs]
  · by_cases hr : Engine.ai_recovery d screen fb <;> simp [hs, hr]

/-! ### C5 — dark frames classify as Loading -/

/-- C5: every well-formed frame whose full-frame mean luminance is below
the dark threshold 30 is classified Loading, regardless of any other
region content, because the Loading heuristic is evaluated first. -/
theorem dark_frame_is_loading (d : GameDetector) (f : Frame)
    (hne : f.isEmpty = false) (hdark : f.grayMean < 30) :
    GameDetector.detect_game_state d f = Except.ok GameState.LOADING := by
  unfold GameDetector.detect_game_state GameDetector.is_loading_screen
  simp [hne, hdark, Except.bind, bind, pure, Except.pure]

/-- Witness for C5: the all-black 1×1 frame has mean luminance 0 and is
classified Loading. -/
theorem dark_frame_is_loading_witness :
    GameDetector.detect_game_state det1080 frameBlack = Except.ok GameState.LOADING :=
  dark_frame_is_loading det1080 frameBlack rfl (by decide)

/-! ### C6 — undersized frames make the classifier raise -/

/-- C6: evaluation at the failing input.  The 2×2 all-white frame is not
dark, so the classifier proceeds to the dialog heuristic, whose region
crop (y 650, x 300 at the native calibration) is empty; cvtColor then
raises, so detect_game_state propagates an error instead of returning
Unknown as the spec requires. -/
theorem undersized_frame_raises :
    frameWhite.rows = 2 ∧ frameWhite.cols = 2 ∧
    GameDetector.detect_game_state det1080 frameWhite = Except.error CvErr.emptyInput :=
  ⟨rfl, rfl, by rfl⟩

/-! ### C8 — turn_to_direction angle normalization -/

/-- The first normalization loop only ever lowers the delta to at most
180 degrees. -/
theorem normHi_le (d : ℚ) : Navigator.normHi d ≤ 180 := by
  induction d using Navigator.normHi.induct with
  | case1 d h ih =>
    rw [Navigator.normHi]
    simp only [h]
    simpa using ih
  | case2 d h =>
    rw [Navigator.normHi]
    simp only [h]
    simp
    linarith [not_lt.mp h]

/-- The second normalization loop only ever raises the delta to at least
−180 degrees. -/
theorem normLo_ge (d : ℚ) : -180 ≤ Navigator.normLo d := by
  induction d using Navigator.normLo.induct with
  | case1 d h ih =>
    rw [Navigator.normLo]
    simp only [h]
    simpa using ih
  | case2 d h =>
    rw [Navigator.normLo]
    simp only [h]
    simp
    linarith [not_lt.mp h]

/-- The second normalization loop preserves an upper bound of 180. -/
theorem normLo_le (d : ℚ) : d ≤ 180 → Navigator.normLo d ≤ 180 := by
  induction d using Navigator.normLo.induct with
  | case1 d h ih =>
    intro _
    rw [Navigator.normLo]
    simp only [h]
    simp
    exact ih (by linarith)
  | case2 d h =>
    intro hle
    rw [Navigator.normLo]
    simp only [h]
    simpa using hle

/-- C8 counterexample: at target 0 and current 180 the normalized delta is
−180, which lies outside the claimed half-open interval (−180, 180]. -/
theorem turn_delta_boundary_cex :
    Navigator.turnDelta 0 180 = -180 ∧ ¬ (-180 < Navigator.turnDelta 0 180) := by
  have h : Navigator.turnDelta 0 180 = -180 := by
    unfold Navigator.turnDelta
    norm_num
    rw [Navigator.normHi]
    norm_num
    rw [Navigator.normLo]
    norm_num
  exact ⟨h, by rw [h]; norm_num⟩

/-- C8 amended: turn_to_direction normalizes the delta into the closed
interval [−180, 180] (the endpoint −180 is reachable and is not wrapped
to +180), converts it with int(delta · 1500 / 360) truncating toward
zero, and — when the controller is not blocked — issues exactly one
relative pointer move of that displacement. -/
theorem turn_to_direction_amended (ctrl : GameController) (t c : ℚ)
    (h : ctrl.blocked = false) :
    -180 ≤ Navigator.turnDelta t c ∧ Navigator.turnDelta t c ≤ 180 ∧
    Navigator.turnPixels t c = ratTrunc (Navigator.turnDelta t c * 1500 / 360) ∧
    Navigator.turn_to_direction ctrl t c =
      ({ ctrl with injected :=
          ctrl.injected ++ [InputEvent.moveRel (Navigator.turnPixels t c) 0] },
        ⟨true, ""⟩) := by
  refine ⟨normLo_ge _, normLo_le _ (normHi_le _), rfl, ?_⟩
  simp [Navigator.turn_to_direction, GameController.rotate_camera,
    GameController.move_mouse_relative, h]

/-- Witness for the amended C8, the spec scenario: turning toward 350°
from 10° computes delta −20° (not +340°) and issues a single small
corrective move of −83 displacement units. -/
theorem turn_to_direction_amended_witness :
    Navigator.turnDelta 350 10 = -20 ∧
    Navigator.turnPixels 350 10 = -83 ∧
    Navigator.turn_to_direction ctrl0 350 10 =
      ({ ctrl0 with injected := [InputEvent.moveRel (-83) 0] }, ⟨true, ""⟩) := by
  have hd : Navigator.turnDelta 350 10 = -20 := by
    unfold Navigator.turnDelta
    norm_num
    rw [Navigator.normHi]
    norm_num
    rw [Navigator.normHi]
    norm_num
    rw [Navigator.normLo]
    norm_num
  have hp : Navigator.turnPixels 350 10 = -83 := by
    unfold Navigator.turnPixels
    rw [hd]
    decide
  have hmove := (turn_to_direction_amended ctrl0 350 10 rfl).2.2.2
  rw [hp] at hmove
  exact ⟨hd, hp, by simpa [ctrl0] using hmove⟩

/-! ### C9 — approach_and_interact attempt budget -/

/-- Helper for C9: when no prompt is visible at any sampled attempt, the
loop body performs one move per attempt index and ends in the failure
result. -/
theorem approachGo_all_fail (prompts : Nat → Bool) :
    ∀ (l : List Nat) (c : GameController) (moves : Nat),
      (∀ a ∈ l, prompts a = false) →
      (Navigator.approachGo prompts l c moves).2 = moves + l.length ∧
      (Navigator.approachGo prompts l c moves).1.2 =
        ⟨false, "Could not reach interaction point"⟩ := by
  intro l
  induction l with
  | nil =>
    intro c moves _
    simp [Navigator.approachGo]
  | cons a rest ih =>
    intro c moves h
    have ha : prompts a = false := h a (by simp)
    have htail := ih (((c.rotate_camera 0 0).1.move_forward).1) (moves + 1)
      (fun b hb => h b (by simp [hb]))
    unfold Navigator.approachGo
    rw [ha]
    simp only [Bool.false_eq_true, if_false]
    refine ⟨?_, htail.2⟩
    rw [htail.1]
    simp
    omega

/-- C9: when no interaction prompt is detected at any sample, the loop
performs exactly max_attempts move-and-resample iterations and then
returns the failure result — never fewer, never more. -/
theorem approach_exhausts_attempts (prompts : Nat → Bool) (c : GameController)
    (max_attempts : Nat) (h : ∀ i, i < max_attempts → prompts i = false) :
    (Navigator.approach_and_interact prompts c max_attempts).2 = max_attempts ∧
    (Navigator.approach_and_interact prompts c max_attempts).1.2 =
      ⟨false, "Could not reach interaction point"⟩ := by
  have := approachGo_all_fail prompts (List.range max_attempts) c 0
    (fun a ha => h a (List.mem_range.mp ha))
  simpa [Navigator.approach_and_interact] using this

/-- Witness for C9 with three attempts and a prompt that never appears. -/
theorem approach_exhausts_attempts_witness :
    (Navigator.approach_and_interact (fun _ => false) ctrl0 3).2 = 3 ∧
    (Navigator.approach_and_interact (fun _ => false) ctrl0 3).1.2 =
      ⟨false, "Could not reach interaction point"⟩ :=
  approach_exhausts_attempts (fun _ => false) ctrl0 3 (fun _ _ => rfl)

/-! ### C7 — non-maximum suppression is idempotent -/

namespace TemplateMatcher

/-- The relation guaranteed between an earlier and a later element of an
NMS output: the later candidate overlaps the earlier one by at most the
threshold (exactly the check the greedy loop performs). -/
def keepRel (thr : ℚ) (a b : MatchResult) : Prop := calculate_overlap b a ≤ thr

/-- The greedy keep loop only ever emits the accumulator followed by a
subsequence of its input. -/
theorem nmsKeep_sublist (thr : ℚ) (l : List MatchResult) :
    ∀ keep, (nmsKeep thr l keep).Sublist (keep ++ l) := by
  induction l with
  | nil =>
    intro keep
    simp [nmsKeep]
  | cons m ms ih =>
    intro keep
    unfold nmsKeep
    by_cases hc : keep.all (fun kept => decide (calculate_overlap m kept ≤ thr)) = true
    · rw [if_pos hc]
      have h1 := ih (keep ++ [m])
      rw [List.append_assoc] at h1
      simpa using h1
    · rw [if_neg hc]
      refine (ih keep).trans ?_
      exact List.Sublist.append_left (List.sublist_cons_self m ms) keep

/-- Every pair of elements of the greedy loop's output satisfies keepRel:
each kept candidate was explicitly checked against all earlier kept
candidates. -/
theorem nmsKeep_pairwise (thr : ℚ) (l : List MatchResult) :
    ∀ keep, keep.Pairwise (keepRel thr) →
      (nmsKeep thr l keep).Pairwise (keepRel thr) := by
  induction l with
  | nil =>
    intro keep h
    simpa [nmsKeep] using h
  | cons m ms ih =>
    intro keep h
    unfold nmsKeep
    by_cases hc : keep.all (fun kept => decide (calculate_overlap m kept ≤ thr)) = true
    · rw [if_pos hc]
      apply ih
      rw [List.pairwise_append]
      refine ⟨h, by simp, ?_⟩
      intro a ha b hb
      rw [List.mem_singleton] at hb
      subst hb
      have := List.all_eq_true.mp hc a ha
      simpa [keepRel] using this
    · rw [if_neg hc]
      exact ih keep h

/-- On an input whose pairs already satisfy keepRel (appended to a
compatible accumulator), the greedy loop keeps everything. -/
theorem nmsKeep_eq_of_pairwise (thr : ℚ) (l : List MatchResult) :
    ∀ keep, (keep ++ l).Pairwise (keepRel thr) →
      nmsKeep thr l keep = keep ++ l := by
  induction l with
  | nil =>
    intro keep _
    simp [nmsKeep]
  | cons m ms ih =>
    intro keep h
    have hk : ∀ k ∈ keep, keepRel thr k m := by
      rw [List.pairwise_append] at h
      intro k hkmem
      exact h.2.2 k hkmem m (by simp)
    have hc : keep.all (fun kept => decide (calculate_overlap m kept ≤ thr)) = true := by
      rw [List.all_eq_true]
      intro k hkmem
      simpa [keepRel] using hk k hkmem
    unfold nmsKeep
    rw [if_pos hc]
    have h2 : ((keep ++ [m]) ++ ms).Pairwise (keepRel thr) := by
      rw [List.append_assoc]
      simpa using h
    rw [ih (keep ++ [m]) h2]
    simp

/-- C7: non-maximum suppression at the overlap threshold 0.5 is
idempotent: applied to its own output it returns exactly the same kept
list (the output is already sorted by descending confidence, so the
stable re-sort leaves it unchanged, and every pair of kept candidates
already has IoU at most 0.5, so the greedy pass keeps everything). -/
theorem nms_idempotent (cands : List MatchResult) :
    non_max_suppression (non_max_suppression cands (1 / 2)) (1 / 2) =
      non_max_suppression cands (1 / 2) := by
  cases cands with
  | nil => rfl
  | cons a as =>
    have hout : non_max_suppression (a :: as) (1 / 2) =
        nmsKeep (1 / 2) (sortDesc (a :: as)) [] := rfl
    rw [hout]
    have hsub : (nmsKeep (1 / 2) (sortDesc (a :: as)) []).Sublist (sortDesc (a :: as)) := by
      simpa using nmsKeep_sublist (1 / 2) (sortDesc (a :: as)) []
    have hsorted : (nmsKeep (1 / 2) (sortDesc (a :: as)) []).Pairwise confGe :=
      List.Pairwise.sublist hsub (List.sorted_insertionSort confGe (a :: as))
    have hpair : (nmsKeep (1 / 2) (sortDesc (a :: as)) []).Pairwise (keepRel (1 / 2)) :=
      nmsKeep_pairwise (1 / 2) (sortDesc (a :: as)) [] (by simp)
    cases hO : nmsKeep (1 / 2) (sortDesc (a :: as)) [] with
    | nil => rfl
    | cons o os =>
      rw [hO] at hsorted hpair
      have hstep : non_max_suppression (o :: os) (1 / 2) =
          nmsKeep (1 / 2) (sortDesc (o :: os)) [] := rfl
      rw [hstep]
      have hsd : sortDesc (o :: os) = o :: os :=
        List.Sorted.insertionSort_eq hsorted
      rw [hsd]
      simpa using nmsKeep_eq_of_pairwise (1 / 2) (o :: os) [] (by simpa using hpair)

end TemplateMatcher

end GiHelper
